import Mathlib

/-!
Shallow embedding of the guitaracc basestation host-side tooling
(src/basestation/*.py): the serial transport as seen by the scripts, the
interactive terminal workers of test_ui.py, the scripted command flows
(run_automated_test, write_factory_defaults, erase_config_storage,
check_flash, test_persistence, test_config_commands.send_cmd,
test_midi_rt_tx.send_command), and the port selection utilities
(select_port.py, test_ui.list_ports).

Bytes are Nat (0..255), decoded code points are Nat.  The serial port is a
state: an inbound buffer plus the ordered log of outbound writes.  Byte
arrivals from the device are explicit inputs to each model, placed at the
points in the control flow where the Python code can observe them.
-/

/-- State of the serial handle as the scripts observe it: whether the port
was opened, the currently buffered inbound bytes, and the ordered log of
payloads passed to ser.write. -/
structure SerialState where
  opened : Bool
  buf : List Nat
  writes : List String
  deriving Repr, DecidableEq

/-- A freshly opened serial port (serial.Serial(...)). -/
def serialOpen : SerialState :=
  { opened := true, buf := [], writes := [] }

/-- A serial handle that was never opened. -/
def serialUnopened : SerialState :=
  { opened := false, buf := [], writes := [] }

/-- ser.write(data) followed by ser.flush(): append the payload to the
write log. -/
def serialWrite (s : SerialState) (data : String) : SerialState :=
  { s with writes := s.writes ++ [data] }

/-- Bytes from the device arriving into the inbound buffer. -/
def serialArrive (s : SerialState) (bs : List Nat) : SerialState :=
  { s with buf := s.buf ++ bs }

/-- ser.in_waiting: number of buffered inbound bytes. -/
def serialInWaiting (s : SerialState) : Nat :=
  s.buf.length

/-- ser.read(ser.in_waiting) (also ser.read_all()): drain the whole inbound
buffer. -/
def serialReadAll (s : SerialState) : List Nat × SerialState :=
  (s.buf, { s with buf := [] })

/-- ser.reset_input_buffer(): discard all buffered inbound bytes. -/
def serialResetInput (s : SerialState) : SerialState :=
  { s with buf := [] }

/-! ### test_ui.run_automated_test

The loop body is, for each (cmd, desc) pair:
  ser.write((cmd + CRLF).encode); ser.flush(); time.sleep(0.5);
  if ser.in_waiting: response = ser.read(ser.in_waiting)
Before the loop: time.sleep(1); ser.reset_input_buffer().

Device byte arrivals are inputs: for each step, `pre` is whatever arrives
between the previous step's read and this step's write (e.g. a late tail
of the previous response), `dur` is what arrives during this step's 0.5 s
sleep. -/

/-- The fixed command list of run_automated_test (descriptions dropped). -/
def autoCommands : List String :=
  ["help", "status", "config show", "echo off", "echo on", "clear"]

/-- One iteration of the run_automated_test loop. -/
def autoTestStep (s : SerialState) (cmd : String) (pre dur : List Nat) :
    List Nat × SerialState :=
  let s1 := serialArrive s pre
  let s2 := serialWrite s1 (cmd ++ "\r\n")
  let s3 := serialArrive s2 dur
  if serialInWaiting s3 ≠ 0 then serialReadAll s3 else ([], s3)

/-- The run_automated_test loop over a list of (command, (pre, dur))
pairs, collecting each step's observed response bytes. -/
def autoTestLoop : SerialState → List (String × List Nat × List Nat) →
    List (List Nat) × SerialState
  | s, [] => ([], s)
  | s, (cmd, pre, dur) :: rest =>
    let r := autoTestStep s cmd pre dur
    let rec' := autoTestLoop r.2 rest
    (r.1 :: rec'.1, rec'.2)

/-- test_ui.run_automated_test: open the port, wait for startup output,
clear the inbound buffer once, then run the command loop.  `startup` is
what arrives during the initial 1 s sleep; `arr` gives each step's (pre,
dur) arrivals. -/
def run_automated_test (startup : List Nat)
    (arr : List (List Nat × List Nat)) : List (List Nat) × SerialState :=
  let s1 := serialResetInput (serialArrive serialOpen startup)
  autoTestLoop s1 (autoCommands.zip arr)

/-- Variant written from the spec sentence, for comparison: the inbound
buffer is cleared immediately before every write. -/
def autoTestStepSpecClear (s : SerialState) (cmd : String)
    (pre dur : List Nat) : List Nat × SerialState :=
  let s1 := serialArrive s pre
  let s1' := serialResetInput s1
  let s2 := serialWrite s1' (cmd ++ "\r\n")
  let s3 := serialArrive s2 dur
  if serialInWaiting s3 ≠ 0 then serialReadAll s3 else ([], s3)

/-! ### Python str.decode of utf-8, with an error policy

bytes.decode('utf-8', errors='replace') renders each malformed sequence as
U+FFFD; errors='ignore' drops it.  This models the standard codec on byte
lists, returning the decoded code points; validity checking is the usual
lead-byte/continuation-byte discipline (overlong and surrogate corner
cases are not needed by any flow modelled here). -/

/-- The decoding error policy of bytes.decode: 'replace' or 'ignore'. -/
inductive DecodePolicy where
  | replace
  | ignore
  deriving Repr, DecidableEq

/-- What a malformed sequence contributes: U+FFFD under 'replace',
nothing under 'ignore'. -/
def replMark : DecodePolicy → List Nat
  | .replace => [0xFFFD]
  | .ignore => []

/-- Is the byte a UTF-8 continuation byte (0x80..0xBF)? -/
def contOk (b : Nat) : Bool :=
  128 ≤ b && b ≤ 191

/-- The byte-consuming decoder loop; the fuel argument only bounds the
recursion depth and is at least the list length at every call from
decodeUtf8, so the fuel-exhausted branch is never taken from there. -/
def decodeUtf8Go (p : DecodePolicy) : Nat → List Nat → List Nat
  | _, [] => []
  | 0, _ :: _ => []
  | fuel + 1, b :: rest =>
    if b < 128 then b :: decodeUtf8Go p fuel rest
    else if 194 ≤ b && b ≤ 223 then
      match rest with
      | b2 :: r2 =>
        if contOk b2 then
          ((b - 192) * 64 + (b2 - 128)) :: decodeUtf8Go p fuel r2
        else replMark p ++ decodeUtf8Go p fuel (b2 :: r2)
      | [] => replMark p
    else if 224 ≤ b && b ≤ 239 then
      match rest with
      | b2 :: b3 :: r3 =>
        if contOk b2 && contOk b3 then
          ((b - 224) * 4096 + (b2 - 128) * 64 + (b3 - 128)) ::
            decodeUtf8Go p fuel r3
        else replMark p ++ decodeUtf8Go p fuel (b2 :: b3 :: r3)
      | [b2] => replMark p ++ decodeUtf8Go p fuel [b2]
      | [] => replMark p
    else if 240 ≤ b && b ≤ 244 then
      match rest with
      | b2 :: b3 :: b4 :: r4 =>
        if contOk b2 && contOk b3 && contOk b4 then
          ((b - 240) * 262144 + (b2 - 128) * 4096 + (b3 - 128) * 64 +
            (b4 - 128)) :: decodeUtf8Go p fuel r4
        else replMark p ++ decodeUtf8Go p fuel (b2 :: b3 :: b4 :: r4)
      | [b2, b3] => replMark p ++ decodeUtf8Go p fuel [b2, b3]
      | [b2] => replMark p ++ decodeUtf8Go p fuel [b2]
      | [] => replMark p
    else replMark p ++ decodeUtf8Go p fuel rest

/-- UTF-8 decoding of a byte list under an error policy. -/
def decodeUtf8 (p : DecodePolicy) (bs : List Nat) : List Nat :=
  decodeUtf8Go p bs.length bs

/-! ### test_ui.GuitarAccTerminal worker threads

The two workers share one boolean running flag.  Each worker is modelled
as a function of the flag value it observes and a finite schedule of
events; its result records the flag value it leaves behind (the model
makes explicit that neither loop body ever assigns the flag except the
Ctrl+C branch of the input worker). -/

/-- An iteration of read_thread observes: available inbound bytes, nothing
available (the 0.01 s sleep branch), or an exception from the serial
read. -/
inductive RdEvent where
  | avail (bs : List Nat)
  | idle
  | err
  deriving Repr, DecidableEq

/-- GuitarAccTerminal.read_thread: while running, drain available bytes
and display them decoded with errors='replace'; on an exception, print the
error and break out of the loop.  Returns the running flag as the worker
leaves it and the concatenated displayed code points. -/
def read_thread (running : Bool) : List RdEvent → Bool × List Nat
  | [] => (running, [])
  | e :: rest =>
    if running then
      match e with
      | .avail bs =>
        let r := read_thread running rest
        (r.1, decodeUtf8 .replace bs ++ r.2)
      | .idle => read_thread running rest
      | .err => (running, [])
    else (running, [])

/-- An iteration of input_thread observes: sys.stdin.read(1) returning a
character with code c, returning an empty (falsy) string, or an exception
from the read or the serial write. -/
inductive InEvent where
  | ch (c : Nat)
  | emptyRead
  | err
  deriving Repr, DecidableEq

/-- The while-loop of GuitarAccTerminal.input_thread: while running, read
one character; Ctrl+C (code 3) clears the running flag and breaks without
being forwarded; any other character is written to the serial port when it
is open; an exception prints the error and breaks.  Returns the running
flag as the worker leaves it and the bytes forwarded to the transport. -/
def inputLoop (serOpen : Bool) (running : Bool) : List InEvent → Bool × List Nat
  | [] => (running, [])
  | e :: rest =>
    if running then
      match e with
      | .ch c =>
        if serOpen then
          if c = 3 then (false, [])
          else
            let r := inputLoop serOpen running rest
            (r.1, c :: r.2)
        else inputLoop serOpen running rest
      | .emptyRead => inputLoop serOpen running rest
      | .err => (running, [])
    else (running, [])

/-- Result of one run of input_thread: the running flag it leaves, the
bytes it forwarded, whether tty.setraw succeeded (raw mode was entered),
and whether termios.tcsetattr restored the saved settings on the way
out. -/
structure InputRes where
  running : Bool
  writes : List Nat
  rawEntered : Bool
  restored : Bool
  deriving Repr, DecidableEq

/-- GuitarAccTerminal.input_thread: old_settings starts as None; the try
block saves the settings (termios.tcgetattr may raise), enters raw mode
(tty.setraw may raise), then runs the loop; the finally block restores the
saved settings whenever old_settings was set, on every exit path. -/
def input_thread (tcgetattrOk rawOk serOpen : Bool) (running : Bool)
    (events : List InEvent) : InputRes :=
  if tcgetattrOk = false then
    { running := running, writes := [], rawEntered := false, restored := false }
  else if rawOk = false then
    { running := running, writes := [], rawEntered := false, restored := true }
  else
    let r := inputLoop serOpen running events
    { running := r.1, writes := r.2, rawEntered := true, restored := true }

/-! ### test_ui confirmation-gated flows

write_factory_defaults prompts for 'YES' and erase_config_storage prompts
for 'ERASE' before any serial.Serial(...) call; on mismatch each prints
"Aborted." and returns False.  On match, the serial open itself may raise
SerialException (modelled by openOk); otherwise the flow sleeps, clears
the buffer once, writes its command(s) and reads whatever arrived. -/

/-- Outcome of a gated flow: the returned boolean and the final serial
state (serialUnopened when serial.Serial was never called). -/
structure FlowResult where
  success : Bool
  ser : SerialState
  deriving Repr, DecidableEq

/-- test_ui.erase_config_storage: gate on the exact string "ERASE", then
open, sleep 1 s (startup bytes arrive), reset_input_buffer, write
"config erase_all\r\n", sleep 1.5 s (dur bytes arrive), read if waiting,
close. -/
def erase_config_storage (confirm : String) (openOk : Bool)
    (startup dur : List Nat) : FlowResult :=
  if confirm ≠ "ERASE" then { success := false, ser := serialUnopened }
  else if openOk = false then { success := false, ser := serialUnopened }
  else
    let s1 := serialResetInput (serialArrive serialOpen startup)
    let s2 := serialWrite s1 "config erase_all\r\n"
    let s3 := serialArrive s2 dur
    let s4 := if serialInWaiting s3 ≠ 0 then (serialReadAll s3).2 else s3
    { success := true, ser := s4 }

/-- test_ui.write_factory_defaults: gate on the exact string "YES", then
open, sleep 1 s, reset_input_buffer, write "config unlock_default\r\n",
sleep 0.5 s (dur1 bytes arrive), read if waiting, write
"config write_default\r\n", sleep 1 s (dur2 bytes arrive), read if
waiting, close. -/
def write_factory_defaults (confirm : String) (openOk : Bool)
    (startup dur1 dur2 : List Nat) : FlowResult :=
  if confirm ≠ "YES" then { success := false, ser := serialUnopened }
  else if openOk = false then { success := false, ser := serialUnopened }
  else
    let s1 := serialResetInput (serialArrive serialOpen startup)
    let s2 := serialWrite s1 "config unlock_default\r\n"
    let s3 := serialArrive s2 dur1
    let s4 := if serialInWaiting s3 ≠ 0 then (serialReadAll s3).2 else s3
    let s5 := serialWrite s4 "config write_default\r\n"
    let s6 := serialArrive s5 dur2
    let s7 := if serialInWaiting s6 ≠ 0 then (serialReadAll s6).2 else s6
    { success := true, ser := s7 }

/-! ### The timed send/sleep/read engine

test_config_commands.send_cmd is the cleanest instance of the pattern:
  ser.write((cmd + CRLF).encode()); time.sleep(0.7);
  if ser.in_waiting: resp = ser.read(ser.in_waiting)
The clock is in milliseconds; time.sleep(d) advances it by d and is the
only operation that does. -/

/-- Serial state together with a millisecond clock. -/
structure TimedSerial where
  now : Nat
  ser : SerialState
  deriving Repr, DecidableEq

/-- Observable trace of one execute call: the drained response bytes, the
clock when the write and flush completed, and the clock when the response
was drained. -/
structure ExecTrace where
  response : List Nat
  writeDone : Nat
  readAt : Nat
  deriving Repr, DecidableEq

/-- The fixed-delay send/sleep/read pattern with wait window w ms: write
cmd + "\r\n", note the clock, sleep w (during which arr bytes arrive),
then drain the buffer if anything is waiting. -/
def executeFixedDelay (w : Nat) (ts : TimedSerial) (cmd : String)
    (arr : List Nat) : ExecTrace × TimedSerial :=
  let s1 := serialWrite ts.ser (cmd ++ "\r\n")
  let tWrite := ts.now
  let tAfter := ts.now + w
  let s2 := serialArrive s1 arr
  let r := if serialInWaiting s2 ≠ 0 then serialReadAll s2 else ([], s2)
  ({ response := r.1, writeDone := tWrite, readAt := tAfter },
   { now := tAfter, ser := r.2 })

/-- test_config_commands.send_cmd: the pattern with its hard-coded 0.7 s
wait. -/
def send_cmd (ts : TimedSerial) (cmd : String) (arr : List Nat) :
    ExecTrace × TimedSerial :=
  executeFixedDelay 700 ts cmd arr

/-! ### check_flash.py and test_persistence.py module bodies -/

/-- check_flash.py: open, sleep 0.5 s (startup bytes arrive), read_all to
clear, write "config show\n" (no carriage return), sleep 0.3 s (arr bytes
arrive), read_all and decode with errors='replace'. -/
def check_flash (startup arr : List Nat) : List Nat × SerialState :=
  let s1 := (serialReadAll (serialArrive serialOpen startup)).2
  let s2 := serialWrite s1 "config show\n"
  let s3 := serialArrive s2 arr
  let r := serialReadAll s3
  (decodeUtf8 .replace r.1, r.2)

/-- test_persistence.py: open, sleep 0.5 s, read_all to clear, then three
write/sleep/read_all rounds with commands terminated by a bare "\n". -/
def test_persistence (startup a1 a2 a3 : List Nat) :
    List (List Nat) × SerialState :=
  let s1 := (serialReadAll (serialArrive serialOpen startup)).2
  let s2 := serialWrite s1 "config show\n"
  let r1 := serialReadAll (serialArrive s2 a1)
  let s3 := serialWrite r1.2 "config midi_ch 5\n"
  let r2 := serialReadAll (serialArrive s3 a2)
  let s4 := serialWrite r2.2 "config show\n"
  let r3 := serialReadAll (serialArrive s4 a3)
  ([decodeUtf8 .replace r1.1, decodeUtf8 .replace r2.1,
    decodeUtf8 .replace r3.1], r3.2)

/-- test_midi_rt_tx.send_command: write cmd + "\r\n", sleep 0.1 s (arr
bytes arrive), read ser.in_waiting bytes and decode with errors='ignore'
(not 'replace'). -/
def mrt_send_command (s : SerialState) (cmd : String) (arr : List Nat) :
    List Nat × SerialState :=
  let s1 := serialWrite s (cmd ++ "\r\n")
  let s2 := serialArrive s1 arr
  let r := serialReadAll s2
  (decodeUtf8 .ignore r.1, r.2)

/-! ### select_port.py and test_ui.list_ports

The filesystem is a listing: the ordered list of paths a glob over /dev
enumerates.  glob.glob(pattern) keeps the paths matching the pattern in
listing order; select_port.find_usb_modem_ports then applies sorted(). -/

/-- Character-list prefix test: does the second list start with the
first? -/
def listStartsWith : List Char → List Char → Bool
  | [], _ => true
  | _ :: _, [] => false
  | p :: ps, c :: cs => p == c && listStartsWith ps cs

/-- Does a path match the glob pattern '/dev/tty.usbmodem*'? -/
def matchUsbmodem (path : String) : Bool :=
  listStartsWith "/dev/tty.usbmodem".data path.data

/-- Does a path match the glob pattern '/dev/tty.usb*'? -/
def matchUsb (path : String) : Bool :=
  listStartsWith "/dev/tty.usb".data path.data

/-- glob.glob: the paths of the listing matching the pattern, in listing
order. -/
def globMatch (pat : String → Bool) (fs : List String) : List String :=
  fs.filter pat

/-- select_port.find_usb_modem_ports: sorted(glob.glob('/dev/tty.usbmodem*')). -/
def find_usb_modem_ports (fs : List String) : List String :=
  List.insertionSort (fun a b => a ≤ b) (globMatch matchUsbmodem fs)

/-- test_ui.list_ports: glob '/dev/tty.usbmodem*', falling back to
'/dev/tty.usb*' when empty; no sorting. -/
def list_ports (fs : List String) : List String :=
  let ports := globMatch matchUsbmodem fs
  let ports := if ports.isEmpty then globMatch matchUsb fs else ports
  ports

/-- One interaction at the selection prompt: the operator enters a line,
or presses Ctrl+C (KeyboardInterrupt). -/
inductive MenuEvent where
  | line (s : String)
  | interrupt
  deriving Repr, DecidableEq

/-- The while-True selection loop of select_port: strip the input; 'q'
(case-insensitive) returns None; a number in 1..len(ports) returns that
port; anything else re-prompts.  KeyboardInterrupt returns None.  A model
run ends with None when the event schedule is exhausted. -/
def selectLoop (ports : List String) : List MenuEvent → Option String
  | [] => none
  | .interrupt :: _ => none
  | .line raw :: rest =>
    let s := raw.trim
    if s.toLower = "q" then none
    else
      match s.toInt? with
      | none => selectLoop ports rest
      | some idx =>
        if h : 1 ≤ idx ∧ idx ≤ ports.length then
          some (ports.get ⟨(idx - 1).toNat, by omega⟩)
        else selectLoop ports rest

/-- What a call to select_port did: the returned port (None on
cancel/no ports) and whether the numbered selection menu was printed. -/
structure SelectResult where
  port : Option String
  menuShown : Bool
  deriving Repr, DecidableEq

/-- select_port.select_port: no ports found returns None with no menu;
exactly one port with auto_select returns it with no menu; otherwise the
menu is printed and the selection loop runs. -/
def select_port (auto_select : Bool) (fs : List String)
    (events : List MenuEvent) : SelectResult :=
  let ports := find_usb_modem_ports fs
  if ports.isEmpty then { port := none, menuShown := false }
  else if ports.length = 1 && auto_select then
    { port := ports.head?, menuShown := false }
  else
    { port := selectLoop ports events, menuShown := true }

/-! ## Helper lemmas -/

/-- One run_automated_test step from an empty buffer: the observed
response is exactly the pre-write arrivals followed by the in-window
arrivals, the buffer is left empty, and the terminated command is
appended to the write log. -/
theorem autoTestStep_of_bufEmpty (o : Bool) (w : List String) (cmd : String)
    (pre dur : List Nat) :
    autoTestStep ⟨o, [], w⟩ cmd pre dur =
      (pre ++ dur, ⟨o, [], w ++ [cmd ++ "\r\n"]⟩) := by
  simp only [autoTestStep, serialArrive, serialWrite, serialInWaiting,
    serialReadAll, List.nil_append]
  by_cases h : pre ++ dur = []
  · simp [h]
  · have hlen : (pre ++ dur).length ≠ 0 := by
      simpa [List.length_eq_zero] using h
    simp [hlen]

/-- The run_automated_test loop from an empty buffer: responses are the
per-step pre ++ dur arrivals and the write log grows by the terminated
commands, in order. -/
theorem autoTestLoop_of_bufEmpty (l : List (String × List Nat × List Nat)) :
    ∀ (o : Bool) (w : List String),
      autoTestLoop ⟨o, [], w⟩ l =
        (l.map (fun p => p.2.1 ++ p.2.2),
         ⟨o, [], w ++ l.map (fun p => p.1 ++ "\r\n")⟩) := by
  induction l with
  | nil => intro o w; simp [autoTestLoop]
  | cons hd tl ih =>
    intro o w
    obtain ⟨cmd, pre, dur⟩ := hd
    simp only [autoTestLoop, autoTestStep_of_bufEmpty, ih, List.map_cons]
    simp [List.append_assoc]

/-! ## C1: stale-response invariant of the command/response engine -/

/-- C1 counterexample: running the automated test with byte 33 arriving
after the first command's read but before the second command's write
("pre" arrival of step 2, no in-window arrival), the second command's
Response is [33] — it consists of a byte that was already buffered before
that command was sent, because run_automated_test clears the inbound
buffer only once, before the loop.  The spec-conform step variant that
clears the buffer immediately before the write returns an empty Response
for the same step. -/
theorem c1_stale_response_counterexample :
    (run_automated_test [83] [([], [79, 75]), ([33], [])]).1 =
      [[79, 75], [33]] ∧
    (autoTestStepSpecClear ⟨true, [], []⟩ "status" [33] []).1 = [] := by
  constructor <;> rfl

/-- C1 amended: the inbound buffer is cleared once, after the startup
wait and before the first command of the script, not immediately before
every write.  Consequently each step's Response is exactly the bytes that
arrived after the previous step's read (stale with respect to this
command) followed by the bytes that arrived during this step's wait
window: startup bytes never reach a Response, but bytes buffered before a
given command's write do. -/
theorem c1_amended_single_clear (startup : List Nat)
    (arr : List (List Nat × List Nat)) :
    (run_automated_test startup arr).1 =
      (autoCommands.zip arr).map (fun p => p.2.1 ++ p.2.2) := by
  have h := autoTestLoop_of_bufEmpty (autoCommands.zip arr) true []
  simp only [run_automated_test, serialResetInput, serialArrive, serialOpen]
  simp only [h]

/-! ## C2: the wait window is never shrunk -/

/-- C2: for every strictly positive wait window w, the fixed-delay
send/sleep/read pattern drains the response no earlier than w
milliseconds after the write and flush completed, and
test_config_commands.send_cmd is exactly this pattern with its 0.7 s
window. -/
theorem c2_wait_window_not_shrunk (w : Nat) (ts : TimedSerial)
    (cmd : String) (arr : List Nat) (_h : 0 < w) :
    (executeFixedDelay w ts cmd arr).1.writeDone + w ≤
      (executeFixedDelay w ts cmd arr).1.readAt ∧
    send_cmd ts cmd arr = executeFixedDelay 700 ts cmd arr := by
  refine ⟨?_, rfl⟩
  simp [executeFixedDelay]

/-- C2 witness: a concrete send_cmd call with a 700 ms window whose
response drain happens at least 700 ms after the write completed. -/
theorem c2_wait_window_witness :
    (executeFixedDelay 700 ⟨0, serialOpen⟩ "config show" [79]).1.writeDone
        + 700 ≤
      (executeFixedDelay 700 ⟨0, serialOpen⟩ "config show" [79]).1.readAt :=
  (c2_wait_window_not_shrunk 700 ⟨0, serialOpen⟩ "config show" [79]
    (by decide)).1

/-! ## C3: confirmation gates of the destructive flows -/

/-- C3: a typed confirmation that differs from the expected token in any
way (including case) makes erase_config_storage (token "ERASE") and
write_factory_defaults (token "YES") return an unsuccessful outcome with
the transport never opened and nothing written; on an exact match with a
successful open, each flow proceeds and writes exactly its scripted
commands. -/
theorem c3_confirmation_gate :
    (∀ (input : String) (openOk : Bool) (startup dur : List Nat),
        input ≠ "ERASE" →
        erase_config_storage input openOk startup dur =
          { success := false, ser := serialUnopened }) ∧
    (∀ (input : String) (openOk : Bool) (startup d1 d2 : List Nat),
        input ≠ "YES" →
        write_factory_defaults input openOk startup d1 d2 =
          { success := false, ser := serialUnopened }) ∧
    (∀ startup dur : List Nat,
        (erase_config_storage "ERASE" true startup dur).success = true ∧
        (erase_config_storage "ERASE" true startup dur).ser.opened = true ∧
        (erase_config_storage "ERASE" true startup dur).ser.writes =
          ["config erase_all\r\n"]) ∧
    (∀ startup d1 d2 : List Nat,
        (write_factory_defaults "YES" true startup d1 d2).success = true ∧
        (write_factory_defaults "YES" true startup d1 d2).ser.opened = true ∧
        (write_factory_defaults "YES" true startup d1 d2).ser.writes =
          ["config unlock_default\r\n", "config write_default\r\n"]) := by
  refine ⟨?_, ?_, ?_, ?_⟩
  · intro input openOk startup dur h
    simp [erase_config_storage, h]
  · intro input openOk startup d1 d2 h
    simp [write_factory_defaults, h]
  · intro startup dur
    by_cases h : dur = [] <;>
      simp [erase_config_storage, serialResetInput, serialArrive, serialOpen,
        serialWrite, serialInWaiting, serialReadAll, h]
  · intro startup d1 d2
    by_cases h1 : d1 = [] <;> by_cases h2 : d2 = [] <;>
      simp [write_factory_defaults, serialResetInput, serialArrive,
        serialOpen, serialWrite, serialInWaiting, serialReadAll, h1, h2]

/-- C3 witness: with input "erase" (wrong case) the erase flow aborts with
no transport interaction; with "ERASE" it proceeds and writes its command;
the factory-defaults flow behaves the same for "YES". -/
theorem c3_confirmation_gate_witness :
    erase_config_storage "erase" true [1, 2] [3] =
      { success := false, ser := serialUnopened } ∧
    write_factory_defaults "yes" true [] [] [] =
      { success := false, ser := serialUnopened } ∧
    (erase_config_storage "ERASE" true [1, 2] [3]).ser.writes =
      ["config erase_all\r\n"] :=
  ⟨c3_confirmation_gate.1 "erase" true [1, 2] [3] (by decide),
   c3_confirmation_gate.2.1 "yes" true [] [] [] (by decide),
   (c3_confirmation_gate.2.2.1 [1, 2] [3]).2.2⟩

/-! ## C4: worker behaviour on a transport error -/

/-- C4 counterexample: a transport error in the reader worker while the
session is running makes the worker print the error and break out of its
loop — the later available bytes are never displayed — but it leaves the
shared running flag set to true; likewise an error in the input worker
leaves the flag true and forwards nothing further.  The claimed
clearing of the running flag on the error path does not happen. -/
theorem c4_error_counterexample :
    read_thread true [RdEvent.err, RdEvent.avail [65]] = (true, []) ∧
    input_thread true true true true [InEvent.err, InEvent.ch 65] =
      { running := true, writes := [], rawEntered := true,
        restored := true } := by
  constructor <;> rfl

/-- C4 amended: a worker that hits a transport error while the session is
running logs the error and exits its own loop immediately (no later event
is processed), but leaves the shared running flag unchanged; the flag is
cleared only by the Ctrl+C branch of the input worker or by the main
thread, so the session can continue with one worker dead. -/
theorem c4_amended_error_exits_without_clearing :
    (∀ rest : List RdEvent, read_thread true (RdEvent.err :: rest) =
      (true, [])) ∧
    (∀ (serOpen : Bool) (rest : List InEvent),
      inputLoop serOpen true (InEvent.err :: rest) = (true, [])) :=
  ⟨fun _ => rfl, fun _ _ => rfl⟩

/-! ## C5: command line terminators -/

/-- C5 counterexample: the check_flash.py flow transmits its scripted
command as "config show" followed by a bare line feed, which is not the
command text with "\r\n" appended. -/
theorem c5_terminator_counterexample :
    (check_flash [] []).2.writes = ["config show\n"] ∧
    "config show\n" ≠ "config show" ++ "\r\n" := by
  constructor
  · rfl
  · decide

/-- C5 amended: the flows of test_ui (automated test, factory defaults,
erase), test_config_commands.send_cmd and test_midi_rt_tx.send_command
terminate every scripted command with "\r\n" appended to the command
text; check_flash.py and test_persistence.py instead terminate their
commands with a bare "\n". -/
theorem c5_amended_terminators :
    (∀ (startup : List Nat) (arr : List (List Nat × List Nat)),
        (run_automated_test startup arr).2.writes =
          (autoCommands.zip arr).map (fun p => p.1 ++ "\r\n")) ∧
    (∀ startup dur : List Nat,
        (erase_config_storage "ERASE" true startup dur).ser.writes =
          ["config erase_all" ++ "\r\n"]) ∧
    (∀ startup d1 d2 : List Nat,
        (write_factory_defaults "YES" true startup d1 d2).ser.writes =
          ["config unlock_default" ++ "\r\n",
           "config write_default" ++ "\r\n"]) ∧
    (∀ (ts : TimedSerial) (cmd : String) (arr : List Nat),
        (send_cmd ts cmd arr).2.ser.writes =
          ts.ser.writes ++ [cmd ++ "\r\n"]) ∧
    (∀ (s : SerialState) (cmd : String) (arr : List Nat),
        (mrt_send_command s cmd arr).2.writes =
          s.writes ++ [cmd ++ "\r\n"]) ∧
    (∀ startup arr : List Nat,
        (check_flash startup arr).2.writes = ["config show" ++ "\n"]) ∧
    (∀ startup a1 a2 a3 : List Nat,
        (test_persistence startup a1 a2 a3).2.writes =
          ["config show" ++ "\n", "config midi_ch 5" ++ "\n",
           "config show" ++ "\n"]) := by
  refine ⟨?_, ?_, ?_, ?_, ?_, ?_, ?_⟩
  · intro startup arr
    have h := autoTestLoop_of_bufEmpty (autoCommands.zip arr) true []
    simp only [run_automated_test, serialResetInput, serialArrive, serialOpen]
    simp [h]
  · intro startup dur
    by_cases h : dur = [] <;>
      simp [erase_config_storage, serialResetInput, serialArrive, serialOpen,
        serialWrite, serialInWaiting, serialReadAll, h]
  · intro startup d1 d2
    by_cases h1 : d1 = [] <;> by_cases h2 : d2 = [] <;>
      simp [write_factory_defaults, serialResetInput, serialArrive,
        serialOpen, serialWrite, serialInWaiting, serialReadAll, h1, h2]
  · intro ts cmd arr
    simp only [send_cmd, executeFixedDelay, serialWrite, serialArrive,
      serialInWaiting, serialReadAll]
    split <;> simp
  · intro s cmd arr
    simp [mrt_send_command, serialWrite, serialArrive, serialReadAll]
  · intro startup arr
    simp [check_flash, serialWrite, serialArrive, serialOpen, serialReadAll]
  · intro startup a1 a2 a3
    simp [test_persistence, serialWrite, serialArrive, serialOpen,
      serialReadAll]

/-! ## C6: permissive decoding of inbound bytes -/

/-- C6 counterexample: a response containing the undecodable byte 0xFF is
read by test_midi_rt_tx.send_command with errors='ignore', so the byte is
dropped and no replacement marker appears in the rendered text, whereas
decoding the same bytes with errors='replace' (as the claim requires of
every flow) renders U+FFFD. -/
theorem c6_decode_counterexample :
    (mrt_send_command serialOpen "midi send_rt 0xFA" [255, 65]).1 = [65] ∧
    decodeUtf8 .replace [255, 65] = [0xFFFD, 65] := by
  constructor <;> rfl

/-- C6 amended: the terminal reader worker and the test_ui, check_flash
and test_persistence response reads decode inbound bytes with
errors='replace' (undecodable sequences are rendered as the U+FFFD
replacement marker), but test_midi_rt_tx.send_command decodes with
errors='ignore', which silently drops undecodable sequences instead of
marking them. -/
theorem c6_amended_decode_policies :
    (∀ (bs : List Nat) (rest : List RdEvent),
        read_thread true (RdEvent.avail bs :: rest) =
          ((read_thread true rest).1,
           decodeUtf8 .replace bs ++ (read_thread true rest).2)) ∧
    (∀ (s : SerialState) (cmd : String) (arr : List Nat),
        (mrt_send_command s cmd arr).1 =
          decodeUtf8 .ignore (s.buf ++ arr)) ∧
    (∀ startup arr : List Nat,
        (check_flash startup arr).1 = decodeUtf8 .replace arr) :=
  ⟨fun _ _ => rfl, fun _ _ _ => rfl, fun _ _ => rfl⟩

/-! ## C7: raw terminal mode is always restored -/

/-- C7: whenever input_thread entered raw capture mode (tty.setraw
succeeded), the saved termios settings are restored on every exit path —
interrupt character, input error, event exhaustion — because the finally
block restores them whenever tcgetattr had saved them. -/
theorem c7_raw_mode_restored (tcOk rawOk serOpen running : Bool)
    (events : List InEvent)
    (h : (input_thread tcOk rawOk serOpen running events).rawEntered =
      true) :
    (input_thread tcOk rawOk serOpen running events).restored = true := by
  cases tcOk <;> cases rawOk <;> simp [input_thread] at h ⊢

/-- C7 witness: a session that entered raw mode and ended through an input
error has its terminal settings restored. -/
theorem c7_raw_mode_restored_witness :
    (input_thread true true true true [InEvent.err]).restored = true :=
  c7_raw_mode_restored true true true true [InEvent.err] rfl

/-! ## C8: interception of the interrupt character -/

/-- C8: in raw capture mode with the serial port open and the session
running, the input worker forwards exactly the characters before the
first interrupt character (byte 3) to the transport, never forwards byte
3 itself, clears the running flag when a byte 3 is read, and processes
nothing after it. -/
theorem c8_interrupt_character (cs : List Nat) :
    (inputLoop true true (cs.map InEvent.ch)).2 =
      cs.takeWhile (fun c => c != 3) ∧
    (3 ∈ cs → (inputLoop true true (cs.map InEvent.ch)).1 = false) ∧
    3 ∉ (inputLoop true true (cs.map InEvent.ch)).2 ∧
    (∀ rest : List InEvent,
      inputLoop true true (InEvent.ch 3 :: rest) = (false, [])) := by
  have key : ∀ l : List Nat,
      (inputLoop true true (l.map InEvent.ch)).2 =
        l.takeWhile (fun c => c != 3) ∧
      (3 ∈ l → (inputLoop true true (l.map InEvent.ch)).1 = false) := by
    intro l
    induction l with
    | nil => simp [inputLoop]
    | cons c l ih =>
      by_cases hc : c = 3
      · subst hc
        refine ⟨?_, ?_⟩ <;> simp [inputLoop, List.takeWhile]
      · have hb : (c != 3) = true := by simpa using hc
        refine ⟨?_, ?_⟩
        · simp [inputLoop, List.takeWhile, hc, hb, ih.1]
        · intro hmem
          rcases List.mem_cons.mp hmem with h3 | h3
          · exact absurd h3.symm hc
          · simp [inputLoop, hc, ih.2 h3]
  refine ⟨(key cs).1, (key cs).2, ?_, fun rest => rfl⟩
  rw [(key cs).1]
  intro hmem
  have := List.mem_takeWhile_imp hmem
  simp at this

/-- C8 witness: typing 'A', then Ctrl+C, then 'B' forwards exactly 'A',
leaves the running flag false, and never forwards byte 3. -/
theorem c8_interrupt_character_witness :
    (inputLoop true true ([65, 3, 66].map InEvent.ch)).2 = [65] ∧
    (inputLoop true true ([65, 3, 66].map InEvent.ch)).1 = false :=
  ⟨(c8_interrupt_character [65, 3, 66]).1,
   (c8_interrupt_character [65, 3, 66]).2.1 (by decide)⟩

/-! ## C9: endpoint listing is deterministic -/

/-- C9: with the set of device paths on the filesystem fixed, repeated
calls to the endpoint listing return the same ordered sequence: both
operations are functions of the filesystem listing, and
select_port.find_usb_modem_ports is moreover invariant under any
reordering of the directory enumeration because it sorts its glob
result. -/
theorem c9_endpoint_listing_deterministic (fs fs2 : List String)
    (h : fs.Perm fs2) :
    find_usb_modem_ports fs = find_usb_modem_ports fs2 ∧
    list_ports fs = list_ports fs := by
  refine ⟨?_, rfl⟩
  simp only [find_usb_modem_ports, globMatch]
  exact List.eq_of_perm_of_sorted
    (((List.perm_insertionSort _ _).trans (h.filter _)).trans
      (List.perm_insertionSort _ _).symm)
    (List.sorted_insertionSort _ _) (List.sorted_insertionSort _ _)

/-- C9 witness: the two enumeration orders of the same two modem ports
produce the same sorted listing. -/
theorem c9_endpoint_listing_witness :
    find_usb_modem_ports ["/dev/tty.usbmodem2", "/dev/tty.usbmodem1"] =
      find_usb_modem_ports ["/dev/tty.usbmodem1", "/dev/tty.usbmodem2"] :=
  (c9_endpoint_listing_deterministic
    ["/dev/tty.usbmodem2", "/dev/tty.usbmodem1"]
    ["/dev/tty.usbmodem1", "/dev/tty.usbmodem2"]
    (List.Perm.swap "/dev/tty.usbmodem1" "/dev/tty.usbmodem2" [])).1

/-! ## C10: select_port branch behaviour -/

/-- C10: select_port returns None with no menu when no USB modem ports
are found; with auto_select and exactly one discovered port it returns
that port with no menu; the numbered selection menu is presented exactly
when more than one port exists or auto_select is off with at least one
port. -/
theorem c10_select_port_branches :
    (∀ (auto : Bool) (fs : List String) (events : List MenuEvent),
        find_usb_modem_ports fs = [] →
        select_port auto fs events = { port := none, menuShown := false }) ∧
    (∀ (fs : List String) (events : List MenuEvent) (p : String),
        find_usb_modem_ports fs = [p] →
        select_port true fs events =
          { port := some p, menuShown := false }) ∧
    (∀ (auto : Bool) (fs : List String) (events : List MenuEvent),
        (1 < (find_usb_modem_ports fs).length ∨
          (auto = false ∧ find_usb_modem_ports fs ≠ [])) →
        (select_port auto fs events).menuShown = true) := by
  refine ⟨?_, ?_, ?_⟩
  · intro auto fs events h
    simp [select_port, h]
  · intro fs events p h
    simp [select_port, h]
  · intro auto fs events h
    rcases h with h | ⟨ha, hne⟩
    · have hni : (find_usb_modem_ports fs).isEmpty = false := by
        rcases hfind : find_usb_modem_ports fs with _ | ⟨a, l⟩
        · rw [hfind] at h
          simp at h
        · simp
      have hlen : (find_usb_modem_ports fs).length ≠ 1 := by omega
      simp [select_port, hni, hlen]
    · subst ha
      have hni : (find_usb_modem_ports fs).isEmpty = false := by
        rcases hfind : find_usb_modem_ports fs with _ | ⟨a, l⟩
        · exact absurd hfind hne
        · simp
      simp [select_port, hni]

/-- C10 witness: with no matching paths select_port returns None and no
menu; with one modem path and auto_select it returns that path with no
menu; with the same single path and auto_select off the menu is shown. -/
theorem c10_select_port_witness :
    select_port true [] [] = { port := none, menuShown := false } ∧
    select_port true ["/dev/tty.usbmodem1"] [] =
      { port := some "/dev/tty.usbmodem1", menuShown := false } ∧
    (select_port false ["/dev/tty.usbmodem1"] []).menuShown = true :=
  ⟨c10_select_port_branches.1 true [] [] rfl,
   c10_select_port_branches.2.1 ["/dev/tty.usbmodem1"] []
     "/dev/tty.usbmodem1" (by decide),
   c10_select_port_branches.2.2 false ["/dev/tty.usbmodem1"] []
     (Or.inr ⟨rfl, by decide⟩)⟩
